import Mathlib

/-!
Shallow embedding of the VL6180X driver's configuration and measurement
acquisition subsystem (config.rs, read_measurements.rs, device_status.rs,
init.rs), together with theorems checking the specification's claims.

Bus interaction is modelled by an oracle (`Bus`): the n-th register read of an
execution receives the oracle's n-th read response, and likewise for writes.
The driver state (`DState`) carries the `Config` record plus chronological
logs (most recent first) of the registers read and the register/value pairs
written. Machine integers are `Nat` with explicit `% 2 ^ w` where wrap-around
matters (the u16 poll counter, the u8 cast in the inter-measurement register
value); the f32 arithmetic used by the two inter-measurement-period
validators is modelled exactly as correctly rounded (round to nearest, ties
to even) rational arithmetic, valid on the value range those validators use.
-/

/-- Registers touched by the embedded operations. Their bus addresses live in
the register map (register.rs, outside src/); the claims only need the
registers' identities, so they are kept symbolic. -/
inductive Reg where
  | RESULT__INTERRUPT_STATUS_GPIO
  | RESULT__RANGE_STATUS
  | RESULT__RANGE_VAL
  | RESULT__ALS_STATUS
  | RESULT__ALS_VAL
  | SYSTEM__INTERRUPT_CLEAR
  | I2C_SLAVE__DEVICE_ADDRESS
deriving DecidableEq, Repr

/-- Modelled from the spec: register.rs is not under src/. The range
result-status decoder yields one of a closed set of device-reported
conditions with a distinguished no-error element (spec section 4.2); a mapped
non-no-error condition is represented by its code. The raw-byte-to-code map
itself stays a parameter of the operations that use it. -/
inductive RangeStatusErrorCode where
  | NoError
  | KnownError (code : Nat)
deriving DecidableEq, Repr

/-- Modelled from the spec: register.rs is not under src/. Ambient analogue
of `RangeStatusErrorCode`. -/
inductive AmbientStatusErrorCode where
  | NoError
  | KnownError (code : Nat)
deriving DecidableEq, Repr

/-- Modelled from the spec: the error taxonomy of section 7 (error.rs is not
under src/). `GpioPinError` is omitted: it is used only by the power
sequencing path, which no claim touches. -/
inductive Error (E : Type) where
  | Timeout
  | ResultNotReady
  | InvalidConfigurationValue (value : Nat)
  | InvalidAddress (address : Nat)
  | UnknownRegisterCode (code : Nat)
  | RangeStatusError (code : RangeStatusErrorCode)
  | AmbientStatusError (code : AmbientStatusErrorCode)
  | BusError (e : E)
deriving Repr

/-- Modelled from the spec: register.rs is not under src/. Channel selector
written to SYSTEM__INTERRUPT_CLEAR to clear the range interrupt; the claims
depend only on the selectors being fixed per-channel values. -/
def sysInterruptClearRange : Nat := 1

/-- Modelled from the spec: ambient channel selector for
SYSTEM__INTERRUPT_CLEAR. -/
def sysInterruptClearAmbient : Nat := 2

/-- Interrupt trigger condition for ambient measurement (config.rs). -/
inductive AmbientInterruptMode where
  | Disabled
  | LevelLow
  | LevelHigh
  | OutOfWindow
  | NewSampleReady
deriving DecidableEq, Repr

/-- Interrupt trigger condition for range measurement (config.rs). -/
inductive RangeInterruptMode where
  | Disabled
  | LevelLow
  | LevelHigh
  | OutOfWindow
  | NewSampleReady
deriving DecidableEq, Repr

/-- Config information for the driver (config.rs). Integer fields are the
source's u8/u16 fields, held as `Nat`. -/
structure Config where
  ptp_offset : Nat
  address : Nat
  range_scaling : Nat
  ambient_scaling : Nat
  poll_max_loop : Nat
  readout_averaging_period_multiplier : Nat
  range_max_convergence_time : Nat
  range_inter_measurement_period : Nat
  range_vhv_recalibration_rate : Nat
  ambient_analogue_gain_level : Nat
  ambient_integration_period : Nat
  ambient_inter_measurement_period : Nat
  range_interrupt_mode : RangeInterruptMode
  ambient_interrupt_mode : AmbientInterruptMode
  range_low_interrupt_threshold : Nat
  range_high_interrupt_threshold : Nat
  ambient_low_interrupt_threshold : Nat
  ambient_high_interrupt_threshold : Nat
deriving DecidableEq, Repr

/-- Default configuration, `Config::new` (config.rs). -/
def Config.new : Config where
  ptp_offset := 0
  address := 0x29
  range_scaling := 1
  ambient_scaling := 1
  poll_max_loop := 500
  readout_averaging_period_multiplier := 48
  range_max_convergence_time := 49
  range_inter_measurement_period := 100
  range_vhv_recalibration_rate := 255
  ambient_analogue_gain_level := 0
  ambient_integration_period := 100
  ambient_inter_measurement_period := 500
  range_interrupt_mode := RangeInterruptMode.NewSampleReady
  ambient_interrupt_mode := AmbientInterruptMode.NewSampleReady
  range_low_interrupt_threshold := 0
  range_high_interrupt_threshold := 0xFF
  ambient_low_interrupt_threshold := 0
  ambient_high_interrupt_threshold := 0xFFFF

/-- Largest `k < 32` with `2 ^ k ≤ n` (and 0 when `n = 0`): the binary
exponent of `n` for `1 ≤ n < 2 ^ 32`, computed by a bounded scan so that it
evaluates inside the kernel. -/
def floorLog2 (n : Nat) : Nat :=
  (List.range 32).foldl (fun acc k => if 2 ^ k ≤ n then k else acc) 0

/-- Correctly rounded (round to nearest, ties to even) conversion of the
positive rational `n / d` to an IEEE binary32 value, returned as a rational
numerator/denominator pair with denominator `2 ^ 23`. Faithful for
`1 ≤ n / d < 2 ^ 24`, the range on which the driver's f32 arithmetic is
evaluated. -/
def roundF32 (n d : Nat) : Nat × Nat :=
  let k := floorLog2 (n / d)
  let q := n * 2 ^ (23 - k) / d
  let r := n * 2 ^ (23 - k) % d
  let m := if 2 * r < d then q
    else if d < 2 * r then q + 1
    else if q % 2 = 0 then q else q + 1
  (m * 2 ^ k, 2 ^ 23)

/-- Rust `as u16` cast of a non-negative f32 value: truncation toward zero,
saturating at 65535. -/
def truncSatU16 (x : Nat × Nat) : Nat := Nat.min (x.1 / x.2) 65535

/-- Source expression `((range_max_convergence_time + 5) as f32 / 0.9) as u16`
(config.rs, set_range_inter_measurement_period). The addition is u8 addition
(wrapping in the release profile, hence `% 256`; the stored field is at most
63, so no wrap occurs on reachable states); the f32 literal 0.9 denotes
15099494 / 2 ^ 24, and the division is correctly rounded. -/
def min_eq_val_range (t : Nat) : Nat :=
  truncSatU16 (roundF32 ((t + 5) % 256 * 2 ^ 24) 15099494)

/-- Source expression `((ambient_integration_period as f32 * 1.1) / 0.9) as u16`
(config.rs, set_ambient_inter_measurement_period). The f32 literal 1.1
denotes 9227469 / 2 ^ 23; the multiplication and the division are each
correctly rounded. -/
def min_eq_val_ambient (p : Nat) : Nat :=
  let r1 := roundF32 (p * 9227469) (2 ^ 23)
  truncSatU16 (roundF32 (r1.1 * 2 ^ 24) (r1.2 * 15099494))

/-- Lower bound used by set_range_inter_measurement_period:
`if 10 < min_eq_val { min_eq_val } else { 10 }` (config.rs). -/
def range_min_bound (t : Nat) : Nat :=
  if 10 < min_eq_val_range t then min_eq_val_range t else 10

/-- Lower bound used by set_ambient_inter_measurement_period (config.rs). -/
def ambient_min_bound (p : Nat) : Nat :=
  if 10 < min_eq_val_ambient p then min_eq_val_ambient p else 10

/-- The least multiple of 10 that is at least `m`. -/
def roundUp10 (m : Nat) : Nat := (m + 9) / 10 * 10

/-- Setter for the max number of loops during polling measurement
(config.rs); no validation. -/
def Config.set_poll_max_loop (c : Config) (max_loop : Nat) : Config :=
  { c with poll_max_loop := max_loop }

/-- Setter for the range max convergence time (config.rs): valid range
2..=63 ms. -/
def Config.set_range_max_convergence_time (c : Config) (time_ms : Nat) :
    Except (Error Unit) Unit × Config :=
  if time_ms < 2 ∨ 63 < time_ms then
    (Except.error (Error.InvalidConfigurationValue time_ms), c)
  else (Except.ok (), { c with range_max_convergence_time := time_ms })

/-- Setter for the period between range measurements in continuous mode
(config.rs): multiple of 10, at least the computed minimum, at most 2550. -/
def Config.set_range_inter_measurement_period (c : Config) (time_ms : Nat) :
    Except (Error Unit) Unit × Config :=
  if time_ms % 10 ≠ 0 ∨ time_ms < range_min_bound c.range_max_convergence_time ∨
      2550 < time_ms then
    (Except.error (Error.InvalidConfigurationValue time_ms), c)
  else (Except.ok (), { c with range_inter_measurement_period := time_ms })

/-- Setter for the ambient result scaler (config.rs): valid range 1..=15. -/
def Config.set_ambient_result_scaler (c : Config) (scaler : Nat) :
    Except (Error Unit) Unit × Config :=
  if scaler < 1 ∨ 15 < scaler then
    (Except.error (Error.InvalidConfigurationValue scaler), c)
  else (Except.ok (), { c with ambient_scaling := scaler })

/-- Setter for the range result scaler (config.rs): valid range 1..=3. -/
def Config.set_range_result_scaler (c : Config) (scaler : Nat) :
    Except (Error Unit) Unit × Config :=
  if scaler < 1 ∨ 3 < scaler then
    (Except.error (Error.InvalidConfigurationValue scaler), c)
  else (Except.ok (), { c with range_scaling := scaler })

/-- Setter for the ambient integration period (config.rs): valid range
1..=256 ms. -/
def Config.set_ambient_integration_period (c : Config) (time_ms : Nat) :
    Except (Error Unit) Unit × Config :=
  if time_ms < 1 ∨ 256 < time_ms then
    (Except.error (Error.InvalidConfigurationValue time_ms), c)
  else (Except.ok (), { c with ambient_integration_period := time_ms })

/-- Setter for the period between ambient measurements in continuous mode
(config.rs): multiple of 10, at least the computed minimum, at most 2560. -/
def Config.set_ambient_inter_measurement_period (c : Config) (time_ms : Nat) :
    Except (Error Unit) Unit × Config :=
  if time_ms % 10 ≠ 0 ∨ time_ms < ambient_min_bound c.ambient_integration_period ∨
      2560 < time_ms then
    (Except.error (Error.InvalidConfigurationValue time_ms), c)
  else (Except.ok (), { c with ambient_inter_measurement_period := time_ms })

/-- Oracle for the bus collaborator: the response to the n-th read and the
n-th write of an execution. -/
structure Bus (E : Type) where
  readResp : Nat → Except E Nat
  writeResp : Nat → Except E Unit

/-- Driver state: the configuration plus chronological logs (most recent
first) of registers read and register/value pairs written. The log lengths
index the bus oracle. -/
structure DState (E : Type) where
  config : Config
  readLog : List Reg
  writeLog : List (Reg × Nat)
deriving Repr

/-- Fresh driver state over a configuration. -/
def initState {E : Type} (c : Config) : DState E :=
  { config := c, readLog := [], writeLog := [] }

/-- One register read: the oracle answers the n-th read, the register is
logged. Models read_named_register / read_named_register_16bit. -/
def readReg {E : Type} (bus : Bus E) (s : DState E) (r : Reg) :
    Except E Nat × DState E :=
  (bus.readResp s.readLog.length, { s with readLog := r :: s.readLog })

/-- One register write: the oracle answers the n-th write, the register and
value are logged (the write is issued whether or not it succeeds). Models
write_named_register / write_only_named_register. -/
def writeReg {E : Type} (bus : Bus E) (s : DState E) (r : Reg) (v : Nat) :
    Except E Unit × DState E :=
  (bus.writeResp s.writeLog.length, { s with writeLog := (r, v) :: s.writeLog })

/-- Raw range count to millimeters: `range_scaling as u16 * raw_range as u16`
(read_measurements.rs); u16 multiplication, hence the `% 2 ^ 16`. -/
def convert_raw_range_to_mm (c : Config) (raw_range : Nat) : Nat :=
  c.range_scaling * raw_range % 65536

/-- Shared fetch-and-decode step for the range channel
(read_measurements.rs, get_range_val_and_status): read the result status,
clear the range interrupt, decode the status byte with the decoder `decR`
(the `TryFrom<u8> for RangeStatusErrorCode` map of register.rs, kept as a
parameter), and on no-error read and convert the raw value. -/
def get_range_val_and_status {E : Type} (bus : Bus E)
    (decR : Nat → Option RangeStatusErrorCode) (s : DState E) :
    Except (Error E) Nat × DState E :=
  match readReg bus s Reg.RESULT__RANGE_STATUS with
  | (Except.error e, s1) => (Except.error (Error.BusError e), s1)
  | (Except.ok status, s1) =>
    match writeReg bus s1 Reg.SYSTEM__INTERRUPT_CLEAR sysInterruptClearRange with
    | (Except.error e, s2) => (Except.error (Error.BusError e), s2)
    | (Except.ok _, s2) =>
      match decR status with
      | none => (Except.error (Error.UnknownRegisterCode status), s2)
      | some err =>
        if err ≠ RangeStatusErrorCode.NoError then
          (Except.error (Error.RangeStatusError err), s2)
        else
          match readReg bus s2 Reg.RESULT__RANGE_VAL with
          | (Except.error e, s3) => (Except.error (Error.BusError e), s3)
          | (Except.ok raw, s3) => (Except.ok (convert_raw_range_to_mm s3.config raw), s3)

/-- Shared fetch-and-decode step for the ambient channel
(read_measurements.rs, get_ambient_val_and_status); returns the raw 16-bit
count. -/
def get_ambient_val_and_status {E : Type} (bus : Bus E)
    (decA : Nat → Option AmbientStatusErrorCode) (s : DState E) :
    Except (Error E) Nat × DState E :=
  match readReg bus s Reg.RESULT__ALS_STATUS with
  | (Except.error e, s1) => (Except.error (Error.BusError e), s1)
  | (Except.ok status, s1) =>
    match writeReg bus s1 Reg.SYSTEM__INTERRUPT_CLEAR sysInterruptClearAmbient with
    | (Except.error e, s2) => (Except.error (Error.BusError e), s2)
    | (Except.ok _, s2) =>
      match decA status with
      | none => (Except.error (Error.UnknownRegisterCode status), s2)
      | some err =>
        if err ≠ AmbientStatusErrorCode.NoError then
          (Except.error (Error.AmbientStatusError err), s2)
        else
          match readReg bus s2 Reg.RESULT__ALS_VAL with
          | (Except.error e, s3) => (Except.error (Error.BusError e), s3)
          | (Except.ok raw, s3) => (Except.ok raw, s3)

/-- Outcome of the busy-poll loop of the blocking reads. -/
inductive PollResult (E : Type) where
  | ready (s : DState E)
  | timeout (s : DState E)
  | busErr (e : E) (s : DState E)
  | fuelOut
deriving Repr

/-- The busy-poll loop shared by the blocking reads (read_measurements.rs):
read the interrupt-status-GPIO register; while the not-ready test `nr`
(the `ResultInterruptStatusGpioCode::has_status` bit test of register.rs for
the channel's no-event class, kept as a parameter) holds, increment the u16
counter `c` (wrapping, hence `% 2 ^ 16`) and time out when it reaches the
budget. `fuel` bounds the unrolling; the source loop is unbounded. -/
def pollLoop {E : Type} (bus : Bus E) (nr : Nat → Bool) (budget : Nat) :
    Nat → Nat → DState E → PollResult E
  | 0, _, _ => PollResult.fuelOut
  | fuel + 1, c, s =>
    match readReg bus s Reg.RESULT__INTERRUPT_STATUS_GPIO with
    | (Except.error e, s1) => PollResult.busErr e s1
    | (Except.ok v, s1) =>
      if nr v then
        if (c + 1) % 65536 = budget then PollResult.timeout s1
        else pollLoop bus nr budget fuel ((c + 1) % 65536) s1
      else PollResult.ready s1

/-- Outcome of a whole blocking read under a fuel bound. -/
inductive RunOut (E α : Type) where
  | out (r : Except (Error E) α) (s : DState E)
  | fuelOut
deriving Repr

/-- Blocking range read (read_measurements.rs,
read_range_mm_blocking_direct): poll until the range-ready condition shows,
then fetch and decode. `nr v` models
`has_status(NoRangeEvents, v)`. -/
def read_range_mm_blocking_direct {E : Type} (bus : Bus E) (nr : Nat → Bool)
    (decR : Nat → Option RangeStatusErrorCode) (fuel : Nat) (s : DState E) :
    RunOut E Nat :=
  match pollLoop bus nr s.config.poll_max_loop fuel 0 s with
  | PollResult.ready s1 =>
    match get_range_val_and_status bus decR s1 with
    | (r, s2) => RunOut.out r s2
  | PollResult.timeout s1 => RunOut.out (Except.error Error.Timeout) s1
  | PollResult.busErr e s1 => RunOut.out (Except.error (Error.BusError e)) s1
  | PollResult.fuelOut => RunOut.fuelOut

/-- Non-blocking range read (read_measurements.rs, read_range_mm_direct). -/
def read_range_mm_direct {E : Type} (bus : Bus E) (nr : Nat → Bool)
    (decR : Nat → Option RangeStatusErrorCode) (s : DState E) :
    Except (Error E) Nat × DState E :=
  match readReg bus s Reg.RESULT__INTERRUPT_STATUS_GPIO with
  | (Except.error e, s1) => (Except.error (Error.BusError e), s1)
  | (Except.ok v, s1) =>
    if nr v then (Except.error Error.ResultNotReady, s1)
    else get_range_val_and_status bus decR s1

/-- Blocking ambient read returning the raw count (read_measurements.rs,
read_ambient_blocking_direct). `nr v` models
`has_status(NoAmbientEvents, v)`. -/
def read_ambient_blocking_direct {E : Type} (bus : Bus E) (nr : Nat → Bool)
    (decA : Nat → Option AmbientStatusErrorCode) (fuel : Nat) (s : DState E) :
    RunOut E Nat :=
  match pollLoop bus nr s.config.poll_max_loop fuel 0 s with
  | PollResult.ready s1 =>
    match get_ambient_val_and_status bus decA s1 with
    | (r, s2) => RunOut.out r s2
  | PollResult.timeout s1 => RunOut.out (Except.error Error.Timeout) s1
  | PollResult.busErr e s1 => RunOut.out (Except.error (Error.BusError e)) s1
  | PollResult.fuelOut => RunOut.fuelOut

/-- Non-blocking ambient read (read_measurements.rs, read_ambient_direct). -/
def read_ambient_direct {E : Type} (bus : Bus E) (nr : Nat → Bool)
    (decA : Nat → Option AmbientStatusErrorCode) (s : DState E) :
    Except (Error E) Nat × DState E :=
  match readReg bus s Reg.RESULT__INTERRUPT_STATUS_GPIO with
  | (Except.error e, s1) => (Except.error (Error.BusError e), s1)
  | (Except.ok v, s1) =>
    if nr v then (Except.error Error.ResultNotReady, s1)
    else get_ambient_val_and_status bus decA s1

/-- Re-addressing (device_status.rs, change_i2c_address_direct): validate the
7-bit address range, write it to the device, and only then store it in the
configuration. -/
def change_i2c_address_direct {E : Type} (bus : Bus E) (s : DState E)
    (new_address : Nat) : Except (Error E) Unit × DState E :=
  if new_address < 0x08 ∨ 0x77 < new_address then
    (Except.error (Error.InvalidAddress new_address), s)
  else
    match writeReg bus s Reg.I2C_SLAVE__DEVICE_ADDRESS new_address with
    | (Except.error e, s1) => (Except.error (Error.BusError e), s1)
    | (Except.ok _, s1) =>
      (Except.ok (), { s1 with config := { s1.config with address := new_address } })

/-- Register value computed during initialization (init.rs,
set_configuration): `((ambient_inter_measurement_period / 10) as u8) - 1`.
The `as u8` cast truncates (hence `% 2 ^ 8`); `none` models u8 subtraction
underflow (a panic in the source's debug profile, wrap in release). -/
def ambient_inter_measurement_val (p : Nat) : Option Nat :=
  if p / 10 % 256 = 0 then none else some (p / 10 % 256 - 1)

/-- Register value computed during initialization (init.rs,
set_configuration): `((range_inter_measurement_period / 10) as u8) - 1`. -/
def range_inter_measurement_val (p : Nat) : Option Nat :=
  if p / 10 % 256 = 0 then none else some (p / 10 % 256 - 1)

/-- Absorbing one more copy of `a` into a replicate prefix. -/
theorem replicate_append_cons {α : Type} (n : Nat) (a : α) (L : List α) :
    List.replicate n a ++ a :: L = List.replicate (n + 1) a ++ L := by
  induction n with
  | zero => rfl
  | succ m ih => simp only [List.replicate_succ, List.cons_append, ih]

/-- On a bus whose reads all succeed with values the not-ready test accepts,
the busy-poll loop times out after exactly `(budget + 65535 - c) % 65536 + 1`
further reads of the interrupt-status-GPIO register (the number of wrapping
u16 increments that take the counter from `c` to `budget`), provided the
fuel covers them; the writes are untouched. -/
theorem pollLoop_timeout {E : Type} (bus : Bus E) (nr : Nat → Bool) (budget : Nat)
    (hok : ∀ i, ∃ v, bus.readResp i = Except.ok v ∧ nr v = true)
    (hb : budget ≤ 65535) :
    ∀ fuel c s, c ≤ 65535 →
      (budget + 65535 - c) % 65536 + 1 ≤ fuel →
      pollLoop bus nr budget fuel c s =
        PollResult.timeout
          { s with
            readLog := List.replicate ((budget + 65535 - c) % 65536 + 1)
                Reg.RESULT__INTERRUPT_STATUS_GPIO ++ s.readLog } := by
  intro fuel
  induction fuel with
  | zero => intro c s hc hk; omega
  | succ f ih =>
    intro c s hc hk
    obtain ⟨v, hv, hnr⟩ := hok s.readLog.length
    simp only [pollLoop, readReg, hv, hnr, if_true]
    by_cases hcb : (c + 1) % 65536 = budget
    · have hk1 : (budget + 65535 - c) % 65536 = 0 := by omega
      simp [hcb, hk1]
    · have hc1 : (c + 1) % 65536 ≤ 65535 := by omega
      have hk1 : (budget + 65535 - (c + 1) % 65536) % 65536 + 1 ≤ f := by omega
      rw [if_neg hcb, ih ((c + 1) % 65536) _ hc1 hk1]
      have hkk : (budget + 65535 - c) % 65536 =
          (budget + 65535 - (c + 1) % 65536) % 65536 + 1 := by omega
      rw [hkk]
      simp [replicate_append_cons]

/-- On a bus whose reads all succeed with values the not-ready test accepts,
the busy-poll loop is still polling (fuel exhausted) whenever the fuel is
smaller than the number of reads the timeout needs. -/
theorem pollLoop_fuelOut {E : Type} (bus : Bus E) (nr : Nat → Bool) (budget : Nat)
    (hok : ∀ i, ∃ v, bus.readResp i = Except.ok v ∧ nr v = true)
    (hb : budget ≤ 65535) :
    ∀ fuel c s, c ≤ 65535 →
      fuel < (budget + 65535 - c) % 65536 + 1 →
      pollLoop bus nr budget fuel c s = PollResult.fuelOut := by
  intro fuel
  induction fuel with
  | zero => intro c s hc hk; rfl
  | succ f ih =>
    intro c s hc hk
    obtain ⟨v, hv, hnr⟩ := hok s.readLog.length
    simp only [pollLoop, readReg, hv, hnr, if_true]
    have hcb : ¬(c + 1) % 65536 = budget := by omega
    have hc1 : (c + 1) % 65536 ≤ 65535 := by omega
    have hk1 : f < (budget + 65535 - (c + 1) % 65536) % 65536 + 1 := by omega
    rw [if_neg hcb, ih ((c + 1) % 65536) _ hc1 hk1]

/-- Claim C1, amended to nonzero poll budgets: for every poll budget N with
1 ≤ N ≤ 65535 stored in the Configuration, if the blocking read never
observes the relevant ready bit in the interrupt-status-GPIO register (every
read succeeds with a value the channel's not-ready test accepts), then the
blocking range read and the blocking ambient read each fail with Timeout
after exactly N reads of that register: with fuel N the run ends in Timeout
having logged exactly N reads of the interrupt-status-GPIO register (and no
writes), while with fuel N − 1 the loop is still polling. -/
theorem claim_C1_blocking_timeout_exact {E : Type} (bus : Bus E)
    (nrR nrA : Nat → Bool) (decR : Nat → Option RangeStatusErrorCode)
    (decA : Nat → Option AmbientStatusErrorCode) (s : DState E)
    (hokR : ∀ i, ∃ v, bus.readResp i = Except.ok v ∧ nrR v = true)
    (hokA : ∀ i, ∃ v, bus.readResp i = Except.ok v ∧ nrA v = true)
    (h1 : 1 ≤ s.config.poll_max_loop) (h2 : s.config.poll_max_loop ≤ 65535) :
    read_range_mm_blocking_direct bus nrR decR s.config.poll_max_loop s =
      RunOut.out (Except.error Error.Timeout)
        { s with
          readLog := List.replicate s.config.poll_max_loop
              Reg.RESULT__INTERRUPT_STATUS_GPIO ++ s.readLog } ∧
    read_range_mm_blocking_direct bus nrR decR (s.config.poll_max_loop - 1) s =
      RunOut.fuelOut ∧
    read_ambient_blocking_direct bus nrA decA s.config.poll_max_loop s =
      RunOut.out (Except.error Error.Timeout)
        { s with
          readLog := List.replicate s.config.poll_max_loop
              Reg.RESULT__INTERRUPT_STATUS_GPIO ++ s.readLog } ∧
    read_ambient_blocking_direct bus nrA decA (s.config.poll_max_loop - 1) s =
      RunOut.fuelOut := by
  have hkN : (s.config.poll_max_loop + 65535 - 0) % 65536 + 1 =
      s.config.poll_max_loop := by omega
  refine ⟨?_, ?_, ?_, ?_⟩
  · unfold read_range_mm_blocking_direct
    rw [pollLoop_timeout bus nrR s.config.poll_max_loop hokR h2
      s.config.poll_max_loop 0 s (by omega) (by omega), hkN]
  · unfold read_range_mm_blocking_direct
    rw [pollLoop_fuelOut bus nrR s.config.poll_max_loop hokR h2
      (s.config.poll_max_loop - 1) 0 s (by omega) (by omega)]
  · unfold read_ambient_blocking_direct
    rw [pollLoop_timeout bus nrA s.config.poll_max_loop hokA h2
      s.config.poll_max_loop 0 s (by omega) (by omega), hkN]
  · unfold read_ambient_blocking_direct
    rw [pollLoop_fuelOut bus nrA s.config.poll_max_loop hokA h2
      (s.config.poll_max_loop - 1) 0 s (by omega) (by omega)]


/-- General form of the blocking range read on a never-ready bus: with
enough fuel it fails with Timeout after `(budget + 65535) % 65536 + 1` reads
of the interrupt-status-GPIO register and no writes. -/
theorem read_range_blocking_timeout_general {E : Type} (bus : Bus E)
    (nr : Nat → Bool) (decR : Nat → Option RangeStatusErrorCode) (fuel : Nat)
    (s : DState E) (hok : ∀ i, ∃ v, bus.readResp i = Except.ok v ∧ nr v = true)
    (hb : s.config.poll_max_loop ≤ 65535)
    (hfuel : (s.config.poll_max_loop + 65535) % 65536 + 1 ≤ fuel) :
    read_range_mm_blocking_direct bus nr decR fuel s =
      RunOut.out (Except.error Error.Timeout)
        { s with
          readLog := List.replicate ((s.config.poll_max_loop + 65535) % 65536 + 1)
              Reg.RESULT__INTERRUPT_STATUS_GPIO ++ s.readLog } := by
  unfold read_range_mm_blocking_direct
  rw [pollLoop_timeout bus nr s.config.poll_max_loop hok hb fuel 0 s
    (by omega) (by omega)]
  rfl

/-- General form of the blocking range read on a never-ready bus with too
little fuel: it is still polling. -/
theorem read_range_blocking_fuelOut_general {E : Type} (bus : Bus E)
    (nr : Nat → Bool) (decR : Nat → Option RangeStatusErrorCode) (fuel : Nat)
    (s : DState E) (hok : ∀ i, ∃ v, bus.readResp i = Except.ok v ∧ nr v = true)
    (hb : s.config.poll_max_loop ≤ 65535)
    (hfuel : fuel < (s.config.poll_max_loop + 65535) % 65536 + 1) :
    read_range_mm_blocking_direct bus nr decR fuel s = RunOut.fuelOut := by
  unfold read_range_mm_blocking_direct
  rw [pollLoop_fuelOut bus nr s.config.poll_max_loop hok hb fuel 0 s
    (by omega) (by omega)]

/-- General form of the blocking ambient read on a never-ready bus: Timeout
after `(budget + 65535) % 65536 + 1` status reads. -/
theorem read_ambient_blocking_timeout_general {E : Type} (bus : Bus E)
    (nr : Nat → Bool) (decA : Nat → Option AmbientStatusErrorCode) (fuel : Nat)
    (s : DState E) (hok : ∀ i, ∃ v, bus.readResp i = Except.ok v ∧ nr v = true)
    (hb : s.config.poll_max_loop ≤ 65535)
    (hfuel : (s.config.poll_max_loop + 65535) % 65536 + 1 ≤ fuel) :
    read_ambient_blocking_direct bus nr decA fuel s =
      RunOut.out (Except.error Error.Timeout)
        { s with
          readLog := List.replicate ((s.config.poll_max_loop + 65535) % 65536 + 1)
              Reg.RESULT__INTERRUPT_STATUS_GPIO ++ s.readLog } := by
  unfold read_ambient_blocking_direct
  rw [pollLoop_timeout bus nr s.config.poll_max_loop hok hb fuel 0 s
    (by omega) (by omega)]
  rfl

/-- General form of the blocking ambient read on a never-ready bus with too
little fuel: it is still polling. -/
theorem read_ambient_blocking_fuelOut_general {E : Type} (bus : Bus E)
    (nr : Nat → Bool) (decA : Nat → Option AmbientStatusErrorCode) (fuel : Nat)
    (s : DState E) (hok : ∀ i, ∃ v, bus.readResp i = Except.ok v ∧ nr v = true)
    (hb : s.config.poll_max_loop ≤ 65535)
    (hfuel : fuel < (s.config.poll_max_loop + 65535) % 65536 + 1) :
    read_ambient_blocking_direct bus nr decA fuel s = RunOut.fuelOut := by
  unfold read_ambient_blocking_direct
  rw [pollLoop_fuelOut bus nr s.config.poll_max_loop hok hb fuel 0 s
    (by omega) (by omega)]

/-- Witness for claim C1: on a concrete never-ready bus, the default
configuration (poll budget 500) makes the blocking range read time out after
exactly 500 reads of the interrupt-status-GPIO register, while 499 fuel steps
are not enough; likewise for the blocking ambient read. -/
theorem claim_C1_witness :
    read_range_mm_blocking_direct (⟨fun _ => Except.ok 0, fun _ => Except.ok ()⟩ : Bus Unit)
        (fun _ => true) (fun _ => none) 500 (initState Config.new) =
      RunOut.out (Except.error Error.Timeout)
        { (initState Config.new : DState Unit) with
            readLog := List.replicate 500 Reg.RESULT__INTERRUPT_STATUS_GPIO ++
              (initState Config.new : DState Unit).readLog } ∧
    read_range_mm_blocking_direct (⟨fun _ => Except.ok 0, fun _ => Except.ok ()⟩ : Bus Unit)
        (fun _ => true) (fun _ => none) 499 (initState Config.new) = RunOut.fuelOut ∧
    read_ambient_blocking_direct (⟨fun _ => Except.ok 0, fun _ => Except.ok ()⟩ : Bus Unit)
        (fun _ => true) (fun _ => none) 500 (initState Config.new) =
      RunOut.out (Except.error Error.Timeout)
        { (initState Config.new : DState Unit) with
            readLog := List.replicate 500 Reg.RESULT__INTERRUPT_STATUS_GPIO ++
              (initState Config.new : DState Unit).readLog } ∧
    read_ambient_blocking_direct (⟨fun _ => Except.ok 0, fun _ => Except.ok ()⟩ : Bus Unit)
        (fun _ => true) (fun _ => none) 499 (initState Config.new) = RunOut.fuelOut := by
  have h := claim_C1_blocking_timeout_exact
    (⟨fun _ => Except.ok 0, fun _ => Except.ok ()⟩ : Bus Unit)
    (fun _ => true) (fun _ => true) (fun _ => none) (fun _ => none)
    (initState Config.new)
    (fun i => ⟨0, rfl, rfl⟩) (fun i => ⟨0, rfl, rfl⟩) (by decide) (by decide)
  have hp : (initState Config.new : DState Unit).config.poll_max_loop = 500 := rfl
  rw [hp] at h
  have h499 : (500 : Nat) - 1 = 499 := rfl
  rw [h499] at h
  exact h

/-- Counterexample to claim C1 as stated: the poll budget 0 is storable in
the Configuration through set_poll_max_loop, and on a never-ready bus the
blocking range read then does not fail with Timeout after 0 reads of the
interrupt-status-GPIO register: after 1 read it is still polling, after 65535
reads it is still polling, and it first times out after 65536 reads (the u16
loop counter is incremented before the comparison, so with budget 0 it must
wrap all the way around). -/
theorem claim_C1_counterexample :
    read_range_mm_blocking_direct (⟨fun _ => Except.ok 0, fun _ => Except.ok ()⟩ : Bus Unit)
        (fun _ => true) (fun _ => none) 1
        (initState (Config.new.set_poll_max_loop 0)) = RunOut.fuelOut ∧
    read_range_mm_blocking_direct (⟨fun _ => Except.ok 0, fun _ => Except.ok ()⟩ : Bus Unit)
        (fun _ => true) (fun _ => none) 65535
        (initState (Config.new.set_poll_max_loop 0)) = RunOut.fuelOut ∧
    read_range_mm_blocking_direct (⟨fun _ => Except.ok 0, fun _ => Except.ok ()⟩ : Bus Unit)
        (fun _ => true) (fun _ => none) 65536
        (initState (Config.new.set_poll_max_loop 0)) =
      RunOut.out (Except.error Error.Timeout)
        { (initState (Config.new.set_poll_max_loop 0) : DState Unit) with
            readLog := List.replicate 65536 Reg.RESULT__INTERRUPT_STATUS_GPIO ++
              (initState (Config.new.set_poll_max_loop 0) : DState Unit).readLog } ∧
    (65536 : Nat) ≠ 0 := by
  refine ⟨?_, ?_, ?_, by decide⟩
  · exact read_range_blocking_fuelOut_general
      (⟨fun _ => Except.ok 0, fun _ => Except.ok ()⟩ : Bus Unit)
      (fun _ => true) (fun _ => none) 1 (initState (Config.new.set_poll_max_loop 0))
      (fun i => ⟨0, rfl, rfl⟩) (by decide) (by decide)
  · exact read_range_blocking_fuelOut_general
      (⟨fun _ => Except.ok 0, fun _ => Except.ok ()⟩ : Bus Unit)
      (fun _ => true) (fun _ => none) 65535 (initState (Config.new.set_poll_max_loop 0))
      (fun i => ⟨0, rfl, rfl⟩) (by decide) (by decide)
  · have h := read_range_blocking_timeout_general
      (⟨fun _ => Except.ok 0, fun _ => Except.ok ()⟩ : Bus Unit)
      (fun _ => true) (fun _ => none) 65536 (initState (Config.new.set_poll_max_loop 0))
      (fun i => ⟨0, rfl, rfl⟩) (by decide) (by decide)
    have hc : ((initState (Config.new.set_poll_max_loop 0) : DState Unit).config.poll_max_loop
        + 65535) % 65536 + 1 = 65536 := by decide
    rw [hc] at h
    exact h

/-- Claim C9: if the poll budget stored in the Configuration is 0 and the
ready bit never appears, a blocking read does not fail with Timeout after 0
status reads: the u16 loop counter is incremented before being compared with
the budget, so with budget 0 the comparison first succeeds after the counter
wraps — after 65535 status reads both blocking reads are still polling, and
Timeout is first reached after exactly 65536 status reads. -/
theorem claim_C9_zero_budget_wraps {E : Type} (bus : Bus E)
    (nrR nrA : Nat → Bool) (decR : Nat → Option RangeStatusErrorCode)
    (decA : Nat → Option AmbientStatusErrorCode) (s : DState E)
    (hokR : ∀ i, ∃ v, bus.readResp i = Except.ok v ∧ nrR v = true)
    (hokA : ∀ i, ∃ v, bus.readResp i = Except.ok v ∧ nrA v = true)
    (h0 : s.config.poll_max_loop = 0) :
    read_range_mm_blocking_direct bus nrR decR 65535 s = RunOut.fuelOut ∧
    read_range_mm_blocking_direct bus nrR decR 65536 s =
      RunOut.out (Except.error Error.Timeout)
        { s with
          readLog := List.replicate 65536 Reg.RESULT__INTERRUPT_STATUS_GPIO ++
            s.readLog } ∧
    read_ambient_blocking_direct bus nrA decA 65535 s = RunOut.fuelOut ∧
    read_ambient_blocking_direct bus nrA decA 65536 s =
      RunOut.out (Except.error Error.Timeout)
        { s with
          readLog := List.replicate 65536 Reg.RESULT__INTERRUPT_STATUS_GPIO ++
            s.readLog } := by
  have hc : (s.config.poll_max_loop + 65535) % 65536 + 1 = 65536 := by omega
  refine ⟨?_, ?_, ?_, ?_⟩
  · exact read_range_blocking_fuelOut_general bus nrR decR 65535 s hokR
      (by omega) (by omega)
  · have h := read_range_blocking_timeout_general bus nrR decR 65536 s hokR
      (by omega) (by omega)
    rw [hc] at h
    exact h
  · exact read_ambient_blocking_fuelOut_general bus nrA decA 65535 s hokA
      (by omega) (by omega)
  · have h := read_ambient_blocking_timeout_general bus nrA decA 65536 s hokA
      (by omega) (by omega)
    rw [hc] at h
    exact h

/-- Witness for claim C9 on a concrete never-ready bus with poll budget 0
stored through set_poll_max_loop. -/
theorem claim_C9_witness :
    read_range_mm_blocking_direct (⟨fun _ => Except.ok 0, fun _ => Except.ok ()⟩ : Bus Unit)
        (fun _ => true) (fun _ => none) 65535
        (initState (Config.new.set_poll_max_loop 0)) = RunOut.fuelOut ∧
    read_range_mm_blocking_direct (⟨fun _ => Except.ok 0, fun _ => Except.ok ()⟩ : Bus Unit)
        (fun _ => true) (fun _ => none) 65536
        (initState (Config.new.set_poll_max_loop 0)) =
      RunOut.out (Except.error Error.Timeout)
        { (initState (Config.new.set_poll_max_loop 0) : DState Unit) with
            readLog := List.replicate 65536 Reg.RESULT__INTERRUPT_STATUS_GPIO ++
              (initState (Config.new.set_poll_max_loop 0) : DState Unit).readLog } ∧
    read_ambient_blocking_direct (⟨fun _ => Except.ok 0, fun _ => Except.ok ()⟩ : Bus Unit)
        (fun _ => true) (fun _ => none) 65535
        (initState (Config.new.set_poll_max_loop 0)) = RunOut.fuelOut ∧
    read_ambient_blocking_direct (⟨fun _ => Except.ok 0, fun _ => Except.ok ()⟩ : Bus Unit)
        (fun _ => true) (fun _ => none) 65536
        (initState (Config.new.set_poll_max_loop 0)) =
      RunOut.out (Except.error Error.Timeout)
        { (initState (Config.new.set_poll_max_loop 0) : DState Unit) with
            readLog := List.replicate 65536 Reg.RESULT__INTERRUPT_STATUS_GPIO ++
              (initState (Config.new.set_poll_max_loop 0) : DState Unit).readLog } := by
  exact claim_C9_zero_budget_wraps
    (⟨fun _ => Except.ok 0, fun _ => Except.ok ()⟩ : Bus Unit)
    (fun _ => true) (fun _ => true) (fun _ => none) (fun _ => none)
    (initState (Config.new.set_poll_max_loop 0))
    (fun i => ⟨0, rfl, rfl⟩) (fun i => ⟨0, rfl, rfl⟩) rfl

/-- Whenever the result-status read succeeds, the range fetch-and-decode
step logs exactly one write — the range interrupt clear — no matter how the
clear write, the decode, and the raw-value read turn out; and its result is
never ResultNotReady or Timeout. -/
theorem get_range_clear_once {E : Type} (bus : Bus E)
    (decR : Nat → Option RangeStatusErrorCode) (s : DState E) (v : Nat)
    (hv : bus.readResp s.readLog.length = Except.ok v) :
    (get_range_val_and_status bus decR s).2.writeLog =
      (Reg.SYSTEM__INTERRUPT_CLEAR, sysInterruptClearRange) :: s.writeLog ∧
    (get_range_val_and_status bus decR s).1 ≠ Except.error Error.ResultNotReady ∧
    (get_range_val_and_status bus decR s).1 ≠ Except.error Error.Timeout := by
  unfold get_range_val_and_status
  simp only [readReg, writeReg, hv]
  rcases hw : bus.writeResp s.writeLog.length with e | u
  · simp [hw]
  · simp only [hw]
    rcases hd : decR v with _ | err
    · simp
    · by_cases he : err = RangeStatusErrorCode.NoError
      · simp only [he, ne_eq, not_true_eq_false, if_false]
        rcases hr : bus.readResp (s.readLog.length + 1) with e2 | raw
        · simp [hr]
        · simp [hr]
      · simp [he]

/-- Ambient analogue of get_range_clear_once. -/
theorem get_ambient_clear_once {E : Type} (bus : Bus E)
    (decA : Nat → Option AmbientStatusErrorCode) (s : DState E) (v : Nat)
    (hv : bus.readResp s.readLog.length = Except.ok v) :
    (get_ambient_val_and_status bus decA s).2.writeLog =
      (Reg.SYSTEM__INTERRUPT_CLEAR, sysInterruptClearAmbient) :: s.writeLog ∧
    (get_ambient_val_and_status bus decA s).1 ≠ Except.error Error.ResultNotReady ∧
    (get_ambient_val_and_status bus decA s).1 ≠ Except.error Error.Timeout := by
  unfold get_ambient_val_and_status
  simp only [readReg, writeReg, hv]
  rcases hw : bus.writeResp s.writeLog.length with e | u
  · simp [hw]
  · simp only [hw]
    rcases hd : decA v with _ | err
    · simp
    · by_cases he : err = AmbientStatusErrorCode.NoError
      · simp only [he, ne_eq, not_true_eq_false, if_false]
        rcases hr : bus.readResp (s.readLog.length + 1) with e2 | raw
        · simp [hr]
        · simp [hr]
      · simp [he]

/-- Claim C2: whenever the result-status read succeeds, the shared
fetch-and-decode step issues the channel's interrupt-clear write exactly
once (its write log grows by exactly the one clear entry, whatever the
decode outcome — success, mapped error, unknown code, or a failed clear or
raw-value read), and fetch-and-decode never reports ResultNotReady or
Timeout; a non-blocking read that returns ResultNotReady and a blocking
read that returns Timeout leave the write log unchanged, issuing no
interrupt-clear write at all. -/
theorem claim_C2_interrupt_clear_discipline {E : Type} (bus : Bus E)
    (nrR nrA : Nat → Bool) (decR : Nat → Option RangeStatusErrorCode)
    (decA : Nat → Option AmbientStatusErrorCode) (fuel : Nat) (s : DState E)
    (v : Nat) (hv : bus.readResp s.readLog.length = Except.ok v)
    (hokR : ∀ i, ∃ u, bus.readResp i = Except.ok u ∧ nrR u = true)
    (hokA : ∀ i, ∃ u, bus.readResp i = Except.ok u ∧ nrA u = true)
    (hb1 : 1 ≤ s.config.poll_max_loop) (hb2 : s.config.poll_max_loop ≤ 65535)
    (hfuel : s.config.poll_max_loop ≤ fuel) :
    (get_range_val_and_status bus decR s).2.writeLog =
      (Reg.SYSTEM__INTERRUPT_CLEAR, sysInterruptClearRange) :: s.writeLog ∧
    (get_ambient_val_and_status bus decA s).2.writeLog =
      (Reg.SYSTEM__INTERRUPT_CLEAR, sysInterruptClearAmbient) :: s.writeLog ∧
    (get_range_val_and_status bus decR s).1 ≠ Except.error Error.ResultNotReady ∧
    (get_range_val_and_status bus decR s).1 ≠ Except.error Error.Timeout ∧
    (get_ambient_val_and_status bus decA s).1 ≠ Except.error Error.ResultNotReady ∧
    (get_ambient_val_and_status bus decA s).1 ≠ Except.error Error.Timeout ∧
    read_range_mm_direct bus nrR decR s =
      (Except.error Error.ResultNotReady,
        { s with readLog := Reg.RESULT__INTERRUPT_STATUS_GPIO :: s.readLog }) ∧
    read_ambient_direct bus nrA decA s =
      (Except.error Error.ResultNotReady,
        { s with readLog := Reg.RESULT__INTERRUPT_STATUS_GPIO :: s.readLog }) ∧
    read_range_mm_blocking_direct bus nrR decR fuel s =
      RunOut.out (Except.error Error.Timeout)
        { s with
          readLog := List.replicate s.config.poll_max_loop
              Reg.RESULT__INTERRUPT_STATUS_GPIO ++ s.readLog } ∧
    read_ambient_blocking_direct bus nrA decA fuel s =
      RunOut.out (Except.error Error.Timeout)
        { s with
          readLog := List.replicate s.config.poll_max_loop
              Reg.RESULT__INTERRUPT_STATUS_GPIO ++ s.readLog } := by
  obtain ⟨hwR, hnR1, hnR2⟩ := get_range_clear_once bus decR s v hv
  obtain ⟨hwA, hnA1, hnA2⟩ := get_ambient_clear_once bus decA s v hv
  have hnrRv : nrR v = true := by
    obtain ⟨u, hu, hnru⟩ := hokR s.readLog.length
    rw [hv] at hu
    injection hu with h
    rw [h]
    exact hnru
  have hnrAv : nrA v = true := by
    obtain ⟨u, hu, hnru⟩ := hokA s.readLog.length
    rw [hv] at hu
    injection hu with h
    rw [h]
    exact hnru
  have hcount : (s.config.poll_max_loop + 65535) % 65536 + 1 =
      s.config.poll_max_loop := by omega
  refine ⟨hwR, hwA, hnR1, hnR2, hnA1, hnA2, ?_, ?_, ?_, ?_⟩
  · unfold read_range_mm_direct
    simp [readReg, hv, hnrRv]
  · unfold read_ambient_direct
    simp [readReg, hv, hnrAv]
  · have h := read_range_blocking_timeout_general bus nrR decR fuel s hokR
      (by omega) (by omega)
    rw [hcount] at h
    exact h
  · have h := read_ambient_blocking_timeout_general bus nrA decA fuel s hokA
      (by omega) (by omega)
    rw [hcount] at h
    exact h

/-- Witness for claim C2 on a concrete bus whose reads return 0 and whose
writes succeed, with a range decoder mapping to NoError and an ambient
decoder with no mapping. -/
theorem claim_C2_witness :
    (get_range_val_and_status (⟨fun _ => Except.ok 0, fun _ => Except.ok ()⟩ : Bus Unit)
        (fun _ => some RangeStatusErrorCode.NoError) (initState Config.new)).2.writeLog =
      (Reg.SYSTEM__INTERRUPT_CLEAR, sysInterruptClearRange) ::
        (initState Config.new : DState Unit).writeLog ∧
    (get_ambient_val_and_status (⟨fun _ => Except.ok 0, fun _ => Except.ok ()⟩ : Bus Unit)
        (fun _ => none) (initState Config.new)).2.writeLog =
      (Reg.SYSTEM__INTERRUPT_CLEAR, sysInterruptClearAmbient) ::
        (initState Config.new : DState Unit).writeLog ∧
    (get_range_val_and_status (⟨fun _ => Except.ok 0, fun _ => Except.ok ()⟩ : Bus Unit)
        (fun _ => some RangeStatusErrorCode.NoError) (initState Config.new)).1 ≠
      Except.error Error.ResultNotReady ∧
    (get_range_val_and_status (⟨fun _ => Except.ok 0, fun _ => Except.ok ()⟩ : Bus Unit)
        (fun _ => some RangeStatusErrorCode.NoError) (initState Config.new)).1 ≠
      Except.error Error.Timeout ∧
    (get_ambient_val_and_status (⟨fun _ => Except.ok 0, fun _ => Except.ok ()⟩ : Bus Unit)
        (fun _ => none) (initState Config.new)).1 ≠ Except.error Error.ResultNotReady ∧
    (get_ambient_val_and_status (⟨fun _ => Except.ok 0, fun _ => Except.ok ()⟩ : Bus Unit)
        (fun _ => none) (initState Config.new)).1 ≠ Except.error Error.Timeout ∧
    read_range_mm_direct (⟨fun _ => Except.ok 0, fun _ => Except.ok ()⟩ : Bus Unit)
        (fun _ => true) (fun _ => some RangeStatusErrorCode.NoError) (initState Config.new) =
      (Except.error Error.ResultNotReady,
        { (initState Config.new : DState Unit) with
            readLog := Reg.RESULT__INTERRUPT_STATUS_GPIO ::
              (initState Config.new : DState Unit).readLog }) ∧
    read_ambient_direct (⟨fun _ => Except.ok 0, fun _ => Except.ok ()⟩ : Bus Unit)
        (fun _ => true) (fun _ => none) (initState Config.new) =
      (Except.error Error.ResultNotReady,
        { (initState Config.new : DState Unit) with
            readLog := Reg.RESULT__INTERRUPT_STATUS_GPIO ::
              (initState Config.new : DState Unit).readLog }) ∧
    read_range_mm_blocking_direct (⟨fun _ => Except.ok 0, fun _ => Except.ok ()⟩ : Bus Unit)
        (fun _ => true) (fun _ => some RangeStatusErrorCode.NoError) 500
        (initState Config.new) =
      RunOut.out (Except.error Error.Timeout)
        { (initState Config.new : DState Unit) with
            readLog := List.replicate 500 Reg.RESULT__INTERRUPT_STATUS_GPIO ++
              (initState Config.new : DState Unit).readLog } ∧
    read_ambient_blocking_direct (⟨fun _ => Except.ok 0, fun _ => Except.ok ()⟩ : Bus Unit)
        (fun _ => true) (fun _ => none) 500 (initState Config.new) =
      RunOut.out (Except.error Error.Timeout)
        { (initState Config.new : DState Unit) with
            readLog := List.replicate 500 Reg.RESULT__INTERRUPT_STATUS_GPIO ++
              (initState Config.new : DState Unit).readLog } := by
  have h := claim_C2_interrupt_clear_discipline
    (⟨fun _ => Except.ok 0, fun _ => Except.ok ()⟩ : Bus Unit)
    (fun _ => true) (fun _ => true) (fun _ => some RangeStatusErrorCode.NoError)
    (fun _ => none) 500 (initState Config.new) 0 rfl
    (fun i => ⟨0, rfl, rfl⟩) (fun i => ⟨0, rfl, rfl⟩) (by decide) (by decide) (by decide)
  have hp : (initState Config.new : DState Unit).config.poll_max_loop = 500 := rfl
  rw [hp] at h
  exact h

/-- Claim C7: when the result-status byte `v` read by fetch-and-decode has
no mapped meaning in the channel's status-code enumeration (decoder returns
none), the operation fails with UnknownRegisterCode carrying that raw byte;
when the byte maps to a non-no-error status, the operation fails with
RangeStatusError (resp. AmbientStatusError) carrying that status; when the
byte maps to the no-error status, neither failure kind is produced and the
raw result is read and returned; and UnknownRegisterCode is a failure kind
distinct from RangeStatusError and AmbientStatusError. -/
theorem claim_C7_unknown_code_distinct {E : Type} (bus : Bus E) (s : DState E)
    (v k w : Nat) (cR : RangeStatusErrorCode) (cA : AmbientStatusErrorCode)
    (decN decE decS : Nat → Option RangeStatusErrorCode)
    (decAN decAE decAS : Nat → Option AmbientStatusErrorCode)
    (hv : bus.readResp s.readLog.length = Except.ok v)
    (hw : bus.writeResp s.writeLog.length = Except.ok ())
    (hr2 : bus.readResp (s.readLog.length + 1) = Except.ok w)
    (hN : decN v = none)
    (hE : decE v = some (RangeStatusErrorCode.KnownError k))
    (hS : decS v = some RangeStatusErrorCode.NoError)
    (hAN : decAN v = none)
    (hAE : decAE v = some (AmbientStatusErrorCode.KnownError k))
    (hAS : decAS v = some AmbientStatusErrorCode.NoError) :
    (get_range_val_and_status bus decN s).1 =
      Except.error (Error.UnknownRegisterCode v) ∧
    (get_range_val_and_status bus decE s).1 =
      Except.error (Error.RangeStatusError (RangeStatusErrorCode.KnownError k)) ∧
    (get_range_val_and_status bus decS s).1 =
      Except.ok (convert_raw_range_to_mm s.config w) ∧
    (get_ambient_val_and_status bus decAN s).1 =
      Except.error (Error.UnknownRegisterCode v) ∧
    (get_ambient_val_and_status bus decAE s).1 =
      Except.error (Error.AmbientStatusError (AmbientStatusErrorCode.KnownError k)) ∧
    (get_ambient_val_and_status bus decAS s).1 = Except.ok w ∧
    (Error.UnknownRegisterCode v : Error E) ≠ Error.RangeStatusError cR ∧
    (Error.UnknownRegisterCode v : Error E) ≠ Error.AmbientStatusError cA := by
  refine ⟨?_, ?_, ?_, ?_, ?_, ?_, by simp, by simp⟩
  · unfold get_range_val_and_status
    simp [readReg, writeReg, hv, hw, hN]
  · unfold get_range_val_and_status
    simp [readReg, writeReg, hv, hw, hE]
  · unfold get_range_val_and_status
    simp [readReg, writeReg, hv, hw, hS, hr2]
  · unfold get_ambient_val_and_status
    simp [readReg, writeReg, hv, hw, hAN]
  · unfold get_ambient_val_and_status
    simp [readReg, writeReg, hv, hw, hAE]
  · unfold get_ambient_val_and_status
    simp [readReg, writeReg, hv, hw, hAS, hr2]

/-- Witness for claim C7 on a concrete bus (reads return 5, writes succeed)
with concrete decoders: no mapping, a mapping to KnownError 7, and a mapping
to NoError. -/
theorem claim_C7_witness :
    (get_range_val_and_status (⟨fun _ => Except.ok 5, fun _ => Except.ok ()⟩ : Bus Unit)
        (fun _ => none) (initState Config.new)).1 =
      Except.error (Error.UnknownRegisterCode 5) ∧
    (get_range_val_and_status (⟨fun _ => Except.ok 5, fun _ => Except.ok ()⟩ : Bus Unit)
        (fun _ => some (RangeStatusErrorCode.KnownError 7)) (initState Config.new)).1 =
      Except.error (Error.RangeStatusError (RangeStatusErrorCode.KnownError 7)) ∧
    (get_range_val_and_status (⟨fun _ => Except.ok 5, fun _ => Except.ok ()⟩ : Bus Unit)
        (fun _ => some RangeStatusErrorCode.NoError) (initState Config.new)).1 =
      Except.ok (convert_raw_range_to_mm (initState Config.new : DState Unit).config 5) ∧
    (get_ambient_val_and_status (⟨fun _ => Except.ok 5, fun _ => Except.ok ()⟩ : Bus Unit)
        (fun _ => none) (initState Config.new)).1 =
      Except.error (Error.UnknownRegisterCode 5) ∧
    (get_ambient_val_and_status (⟨fun _ => Except.ok 5, fun _ => Except.ok ()⟩ : Bus Unit)
        (fun _ => some (AmbientStatusErrorCode.KnownError 7)) (initState Config.new)).1 =
      Except.error (Error.AmbientStatusError (AmbientStatusErrorCode.KnownError 7)) ∧
    (get_ambient_val_and_status (⟨fun _ => Except.ok 5, fun _ => Except.ok ()⟩ : Bus Unit)
        (fun _ => some AmbientStatusErrorCode.NoError) (initState Config.new)).1 =
      Except.ok 5 ∧
    (Error.UnknownRegisterCode 5 : Error Unit) ≠
      Error.RangeStatusError (RangeStatusErrorCode.KnownError 9) ∧
    (Error.UnknownRegisterCode 5 : Error Unit) ≠
      Error.AmbientStatusError (AmbientStatusErrorCode.KnownError 9) := by
  exact claim_C7_unknown_code_distinct
    (⟨fun _ => Except.ok 5, fun _ => Except.ok ()⟩ : Bus Unit)
    (initState Config.new) 5 7 5
    (RangeStatusErrorCode.KnownError 9) (AmbientStatusErrorCode.KnownError 9)
    (fun _ => none) (fun _ => some (RangeStatusErrorCode.KnownError 7))
    (fun _ => some RangeStatusErrorCode.NoError)
    (fun _ => none) (fun _ => some (AmbientStatusErrorCode.KnownError 7))
    (fun _ => some AmbientStatusErrorCode.NoError)
    rfl rfl rfl rfl rfl rfl rfl rfl rfl

/-- Claim C8: re-addressing to any value below 0x08 or above 0x77 fails with
InvalidAddress carrying the offending value and leaves the whole driver
state — including the stored bus address and the write log — unchanged,
issuing no bus write; every value from 0x08 through 0x77 passes validation:
the device-address write is issued and the result is never InvalidAddress. -/
theorem claim_C8_address_validation {E : Type} (bus : Bus E) (s : DState E)
    (a b : Nat) (ha : a < 0x08 ∨ 0x77 < a) (hb1 : 0x08 ≤ b) (hb2 : b ≤ 0x77) :
    change_i2c_address_direct bus s a = (Except.error (Error.InvalidAddress a), s) ∧
    (change_i2c_address_direct bus s b).2.writeLog =
      (Reg.I2C_SLAVE__DEVICE_ADDRESS, b) :: s.writeLog ∧
    (change_i2c_address_direct bus s b).1 ≠ Except.error (Error.InvalidAddress b) := by
  refine ⟨?_, ?_, ?_⟩
  · unfold change_i2c_address_direct
    rw [if_pos ha]
  · unfold change_i2c_address_direct
    rw [if_neg (by omega)]
    simp only [writeReg]
    rcases hw : bus.writeResp s.writeLog.length with e | u <;> simp [hw]
  · unfold change_i2c_address_direct
    rw [if_neg (by omega)]
    simp only [writeReg]
    rcases hw : bus.writeResp s.writeLog.length with e | u <;> simp [hw]

/-- Witness for claim C8: 0x07 is rejected with InvalidAddress and the state
is untouched; 0x08 is accepted and the address write is issued. -/
theorem claim_C8_witness :
    change_i2c_address_direct (⟨fun _ => Except.ok 0, fun _ => Except.ok ()⟩ : Bus Unit)
        (initState Config.new) 0x07 =
      (Except.error (Error.InvalidAddress 0x07), initState Config.new) ∧
    (change_i2c_address_direct (⟨fun _ => Except.ok 0, fun _ => Except.ok ()⟩ : Bus Unit)
        (initState Config.new) 0x08).2.writeLog =
      (Reg.I2C_SLAVE__DEVICE_ADDRESS, 0x08) ::
        (initState Config.new : DState Unit).writeLog ∧
    (change_i2c_address_direct (⟨fun _ => Except.ok 0, fun _ => Except.ok ()⟩ : Bus Unit)
        (initState Config.new) 0x08).1 ≠ Except.error (Error.InvalidAddress 0x08) := by
  exact claim_C8_address_validation
    (⟨fun _ => Except.ok 0, fun _ => Except.ok ()⟩ : Bus Unit)
    (initState Config.new) 0x07 0x08 (by decide) (by decide) (by decide)

/-- Claim C10: for every address that passes validation, the stored bus
address is updated only after the device-address write succeeds — if the
write fails, change_i2c_address_direct returns the wrapped bus error and the
configuration (in particular its address field) is unchanged, with the
attempted write logged; if the write succeeds, the address is stored. -/
theorem claim_C10_address_stored_after_write {E : Type} (bus bus2 : Bus E)
    (s : DState E) (b : Nat) (e : E) (hb1 : 0x08 ≤ b) (hb2 : b ≤ 0x77)
    (hfail : bus.writeResp s.writeLog.length = Except.error e)
    (hgood : bus2.writeResp s.writeLog.length = Except.ok ()) :
    change_i2c_address_direct bus s b =
      (Except.error (Error.BusError e),
        { s with writeLog := (Reg.I2C_SLAVE__DEVICE_ADDRESS, b) :: s.writeLog }) ∧
    (change_i2c_address_direct bus s b).2.config.address = s.config.address ∧
    change_i2c_address_direct bus2 s b =
      (Except.ok (),
        { s with
          config := { s.config with address := b },
          writeLog := (Reg.I2C_SLAVE__DEVICE_ADDRESS, b) :: s.writeLog }) := by
  refine ⟨?_, ?_, ?_⟩
  · unfold change_i2c_address_direct
    rw [if_neg (by omega)]
    simp [writeReg, hfail]
  · unfold change_i2c_address_direct
    rw [if_neg (by omega)]
    simp [writeReg, hfail]
  · unfold change_i2c_address_direct
    rw [if_neg (by omega)]
    simp [writeReg, hgood]

/-- Witness for claim C10 at address 0x2A with a bus whose write fails and a
bus whose write succeeds. -/
theorem claim_C10_witness :
    change_i2c_address_direct (⟨fun _ => Except.ok 0, fun _ => Except.error ()⟩ : Bus Unit)
        (initState Config.new) 0x2A =
      (Except.error (Error.BusError ()),
        { (initState Config.new : DState Unit) with
            writeLog := (Reg.I2C_SLAVE__DEVICE_ADDRESS, 0x2A) ::
              (initState Config.new : DState Unit).writeLog }) ∧
    (change_i2c_address_direct (⟨fun _ => Except.ok 0, fun _ => Except.error ()⟩ : Bus Unit)
        (initState Config.new) 0x2A).2.config.address =
      (initState Config.new : DState Unit).config.address ∧
    change_i2c_address_direct (⟨fun _ => Except.ok 0, fun _ => Except.ok ()⟩ : Bus Unit)
        (initState Config.new) 0x2A =
      (Except.ok (),
        { (initState Config.new : DState Unit) with
            config := { (initState Config.new : DState Unit).config with address := 0x2A },
            writeLog := (Reg.I2C_SLAVE__DEVICE_ADDRESS, 0x2A) ::
              (initState Config.new : DState Unit).writeLog }) := by
  exact claim_C10_address_stored_after_write
    (⟨fun _ => Except.ok 0, fun _ => Except.error ()⟩ : Bus Unit)
    (⟨fun _ => Except.ok 0, fun _ => Except.ok ()⟩ : Bus Unit)
    (initState Config.new) 0x2A () (by decide) (by decide) rfl rfl

/-- Claim C3: set_ambient_inter_measurement_period accepts exactly the
inputs that are multiples of 10 ms, at least the computed minimum, and at
most 2560 ms; every input above 2560 is rejected with
InvalidConfigurationValue carrying that input and leaves the configuration
unchanged; and the analogous range validator caps at 2550, rejecting
2560 ms. -/
theorem claim_C3_ambient_period_bounds (c : Config) (x y : Nat) (hy : 2560 < y) :
    ((c.set_ambient_inter_measurement_period x).1 = Except.ok () ↔
      x % 10 = 0 ∧ ambient_min_bound c.ambient_integration_period ≤ x ∧ x ≤ 2560) ∧
    c.set_ambient_inter_measurement_period y =
      (Except.error (Error.InvalidConfigurationValue y), c) ∧
    c.set_range_inter_measurement_period 2560 =
      (Except.error (Error.InvalidConfigurationValue 2560), c) := by
  refine ⟨⟨?_, ?_⟩, ?_, ?_⟩
  · intro hok
    unfold Config.set_ambient_inter_measurement_period at hok
    by_cases h : x % 10 ≠ 0 ∨ x < ambient_min_bound c.ambient_integration_period ∨
        2560 < x
    · rw [if_pos h] at hok
      exact absurd hok (by simp)
    · push_neg at h
      exact ⟨h.1, h.2.1, h.2.2⟩
  · intro h
    unfold Config.set_ambient_inter_measurement_period
    rw [if_neg (by omega)]
  · unfold Config.set_ambient_inter_measurement_period
    rw [if_pos (Or.inr (Or.inr hy))]
  · unfold Config.set_range_inter_measurement_period
    rw [if_pos (Or.inr (Or.inr (by norm_num)))]

/-- Witness for claim C3 on the default configuration at input 500 and
out-of-range input 2570. -/
theorem claim_C3_witness :
    ((Config.new.set_ambient_inter_measurement_period 500).1 = Except.ok () ↔
      500 % 10 = 0 ∧ ambient_min_bound Config.new.ambient_integration_period ≤ 500 ∧
        500 ≤ 2560) ∧
    Config.new.set_ambient_inter_measurement_period 2570 =
      (Except.error (Error.InvalidConfigurationValue 2570), Config.new) ∧
    Config.new.set_range_inter_measurement_period 2560 =
      (Except.error (Error.InvalidConfigurationValue 2560), Config.new) := by
  exact claim_C3_ambient_period_bounds Config.new 500 2570 (by decide)

/-- Claim C6: set_range_result_scaler stores exactly its input on [1,3] and
set_ambient_result_scaler stores exactly its input on [1,15]; every u8 input
outside the respective bound is rejected with InvalidConfigurationValue
carrying the offending value, leaving the whole configuration unchanged. -/
theorem claim_C6_scaler_setters (c : Config) (v w u z : Nat)
    (hv1 : 1 ≤ v) (hv3 : v ≤ 3) (hw1 : 1 ≤ w) (hw15 : w ≤ 15)
    (hu255 : u ≤ 255) (hu : u < 1 ∨ 3 < u)
    (hz255 : z ≤ 255) (hz : z < 1 ∨ 15 < z) :
    c.set_range_result_scaler v = (Except.ok (), { c with range_scaling := v }) ∧
    c.set_ambient_result_scaler w = (Except.ok (), { c with ambient_scaling := w }) ∧
    c.set_range_result_scaler u =
      (Except.error (Error.InvalidConfigurationValue u), c) ∧
    c.set_ambient_result_scaler z =
      (Except.error (Error.InvalidConfigurationValue z), c) := by
  refine ⟨?_, ?_, ?_, ?_⟩
  · unfold Config.set_range_result_scaler
    rw [if_neg (by omega)]
  · unfold Config.set_ambient_result_scaler
    rw [if_neg (by omega)]
  · unfold Config.set_range_result_scaler
    rw [if_pos hu]
  · unfold Config.set_ambient_result_scaler
    rw [if_pos hz]

/-- Witness for claim C6 at inputs 2 (range, accepted), 5 (ambient,
accepted), 0 (range, rejected) and 16 (ambient, rejected) on the default
configuration. -/
theorem claim_C6_witness :
    Config.new.set_range_result_scaler 2 =
      (Except.ok (), { Config.new with range_scaling := 2 }) ∧
    Config.new.set_ambient_result_scaler 5 =
      (Except.ok (), { Config.new with ambient_scaling := 5 }) ∧
    Config.new.set_range_result_scaler 0 =
      (Except.error (Error.InvalidConfigurationValue 0), Config.new) ∧
    Config.new.set_ambient_result_scaler 16 =
      (Except.error (Error.InvalidConfigurationValue 16), Config.new) := by
  exact claim_C6_scaler_setters Config.new 2 5 0 16 (by decide) (by decide)
    (by decide) (by decide) (by decide) (by decide) (by decide) (by decide)

/-- Claim C4: for every configured ambient inter-measurement period that is
a multiple of 10 with 10 ≤ p ≤ 2550, the register value
((p / 10) as u8) − 1 computed during initialization does not underflow and
equals p/10 − 1; but for p = 2560, which set_ambient_inter_measurement_period
accepts (shown here from the default configuration), 2560/10 = 256 truncates
to 0 as u8 and the u8 subtraction 0 − 1 underflows. -/
theorem claim_C4_init_register_underflow (p : Nat) (h10 : p % 10 = 0)
    (hlo : 10 ≤ p) (hhi : p ≤ 2550) :
    ambient_inter_measurement_val p = some (p / 10 - 1) ∧
    ambient_inter_measurement_val 2560 = none ∧
    (Config.new.set_ambient_inter_measurement_period 2560).1 = Except.ok () := by
  refine ⟨?_, by decide, rfl⟩
  unfold ambient_inter_measurement_val
  rw [if_neg (by omega)]
  have h256 : p / 10 % 256 = p / 10 := by omega
  rw [h256]

/-- Witness for claim C4 at p = 500. -/
theorem claim_C4_witness :
    ambient_inter_measurement_val 500 = some (500 / 10 - 1) ∧
    ambient_inter_measurement_val 2560 = none ∧
    (Config.new.set_ambient_inter_measurement_period 2560).1 = Except.ok () := by
  exact claim_C4_init_register_underflow 500 (by decide) (by decide) (by decide)

/-- For every storable range max convergence time (at most 63 ms, checked on
the whole u8-truncated table up to 63), the computed minimum inter-
measurement bound stays at most 76 ms. -/
theorem range_min_bound_le : ∀ t < 64, range_min_bound t ≤ 76 := by decide

/-- The computed minimum inter-measurement bound is never below 10 ms. -/
theorem range_min_bound_ge (t : Nat) : 10 ≤ range_min_bound t := by
  unfold range_min_bound
  split <;> omega

/-- Claim C5: set_range_inter_measurement_period computes its minimum bound
from the currently stored range_max_convergence_time (the larger of 10 and
the u16-truncated f32 quotient (stored + 5)/0.9), not from any value
supplied in the same call: for any stored convergence time in the valid
range 2..=63, the setter accepts that minimum rounded up to the next
multiple of 10, rejects the value 10 ms below it with
InvalidConfigurationValue, and accepts exactly the inputs that are
multiples of 10, at least the minimum, and at most 2550. -/
theorem claim_C5_range_period_bounds (c : Config) (x : Nat)
    (h2 : 2 ≤ c.range_max_convergence_time)
    (h63 : c.range_max_convergence_time ≤ 63) :
    (c.set_range_inter_measurement_period
        (roundUp10 (range_min_bound c.range_max_convergence_time))).1 =
      Except.ok () ∧
    c.set_range_inter_measurement_period
        (roundUp10 (range_min_bound c.range_max_convergence_time) - 10) =
      (Except.error (Error.InvalidConfigurationValue
          (roundUp10 (range_min_bound c.range_max_convergence_time) - 10)), c) ∧
    ((c.set_range_inter_measurement_period x).1 = Except.ok () ↔
      x % 10 = 0 ∧ range_min_bound c.range_max_convergence_time ≤ x ∧ x ≤ 2550) := by
  have hle : range_min_bound c.range_max_convergence_time ≤ 76 :=
    range_min_bound_le c.range_max_convergence_time (by omega)
  have hge : 10 ≤ range_min_bound c.range_max_convergence_time :=
    range_min_bound_ge c.range_max_convergence_time
  refine ⟨?_, ?_, ⟨?_, ?_⟩⟩
  · unfold Config.set_range_inter_measurement_period
    rw [if_neg (by unfold roundUp10; omega)]
  · unfold Config.set_range_inter_measurement_period
    rw [if_pos (Or.inr (Or.inl (by unfold roundUp10; omega)))]
  · intro hok
    unfold Config.set_range_inter_measurement_period at hok
    by_cases h : x % 10 ≠ 0 ∨ x < range_min_bound c.range_max_convergence_time ∨
        2550 < x
    · rw [if_pos h] at hok
      exact absurd hok (by simp)
    · push_neg at h
      exact ⟨h.1, h.2.1, h.2.2⟩
  · intro h
    unfold Config.set_range_inter_measurement_period
    rw [if_neg (by omega)]

/-- Witness for claim C5 on the default configuration (stored convergence
time 49 ms) at input 100. -/
theorem claim_C5_witness :
    (Config.new.set_range_inter_measurement_period
        (roundUp10 (range_min_bound Config.new.range_max_convergence_time))).1 =
      Except.ok () ∧
    Config.new.set_range_inter_measurement_period
        (roundUp10 (range_min_bound Config.new.range_max_convergence_time) - 10) =
      (Except.error (Error.InvalidConfigurationValue
          (roundUp10 (range_min_bound Config.new.range_max_convergence_time) - 10)),
        Config.new) ∧
    ((Config.new.set_range_inter_measurement_period 100).1 = Except.ok () ↔
      100 % 10 = 0 ∧ range_min_bound Config.new.range_max_convergence_time ≤ 100 ∧
        100 ≤ 2550) := by
  exact claim_C5_range_period_bounds Config.new 100 (by decide) (by decide)
